import Mathlib

/-!
Shallow embedding of the priority/status computation engine of
`planner_db.py` (functions `_impact_points`, `_urgency_points`,
`_info_points`, `_effort_penalty`, `_blocked_penalty`,
`_label_from_score`, `recalc_priority`, `top5`).

Modelling conventions:
* Python floats are modelled as exact rationals (`ℚ`); every arithmetic
  value produced by the engine (multiples of 0.5 divided by small list
  lengths / day windows) is an exact rational in the source as well.
* A pandas row is modelled by the structure `Row` holding the fields of
  the `Task` table that `recalc_priority` and `top5` read.
* `due_date` is a string parsed with `dateutil.parser.parse`; the parse
  itself is outside the engine, so the field is modelled by its parse
  outcome: `none` for an absent/empty value (Python `if not due`),
  `some none` for a present but unparseable string (the `except` branch),
  and `some (some d)` for a string parsing to the day ordinal `d`.
  `date.today()` is passed explicitly as the `today : Int` parameter.
* Python `str.strip` / `str.lower` are modelled on `List Char`
  (`String.data`) by `pyStrip` / `pyLower`, so that every normalisation
  is computable by kernel reduction.
* Python `set` intersection cardinality `len(set xs & set ys)` is
  `setInterCard`, counting the distinct elements of `xs` that occur in
  `ys`.
* Dependency ids are integers (the JSON list of ids), so the source
  filter `str(d).isdigit() or isinstance(d, int)` keeps every element.
-/

namespace PlannerDb

/-- Python `x.strip()` on the character list of a string: drop whitespace
from both ends. -/
def pyStrip (s : List Char) : List Char :=
  ((s.dropWhile Char.isWhitespace).reverse.dropWhile Char.isWhitespace).reverse

/-- Python `x.lower()` on the character list of a string. -/
def pyLower (s : List Char) : List Char :=
  s.map Char.toLower

/-- The normalisation `x.strip().lower()` used in `_info_points`. -/
def normStripLower (x : String) : List Char :=
  pyLower (pyStrip x.data)

/-- The normalisation `x.lower()` used for `info_ratio` in
`recalc_priority` (line 166) — note: no `strip`. -/
def normLower (x : String) : List Char :=
  pyLower x.data

/-- Python `len(set(xs) & set(ys))`: the number of distinct elements of
`xs` that also occur in `ys`. -/
def setInterCard (xs ys : List (List Char)) : Nat :=
  (xs.dedup.filter (fun x => x ∈ ys)).length

/-- `_impact_points`: table lookup with default 15. -/
def _impact_points (impact : String) : ℚ :=
  if impact = "Low" then 5
  else if impact = "Medium" then 15
  else if impact = "High" then 30
  else if impact = "Critical" then 40
  else 15

/-- `_urgency_points`. `due = none` models a falsy `due` value,
`due = some none` a string on which `dateutil.parser.parse` raises, and
`due = some (some d)` a string parsing to day ordinal `d`; `today` is
`date.today()` as a day ordinal. -/
def _urgency_points (due : Option (Option Int)) (days_window : Int) (today : Int) : ℚ :=
  match due with
  | none => 0
  | some none => 0
  | some (some due_dt) =>
    let days_left : Int := due_dt - today
    if days_left ≤ 0 then 30
    else min 30 (max 0 (30 * (1 - (days_left : ℚ) / (days_window : ℚ))))

/-- `_info_points`. -/
def _info_points (required received : List String) : ℚ :=
  if required.isEmpty then 0
  else
    let got := setInterCard (received.map normStripLower) (required.map normStripLower)
    40 * ((got : ℚ) / (max 1 required.length : ℚ))

/-- `_effort_penalty`: clamp effort to [1,8] then −1.5 × (e − 1). -/
def _effort_penalty (effort : Int) : ℚ :=
  let e : Int := max 1 (min 8 effort);
  -1.5 * ((e : ℚ) - 1)

/-- `_blocked_penalty`. -/
def _blocked_penalty (status : String) (deps_open : Bool) : ℚ :=
  if status = "Blocked" ∨ deps_open = true then -25 else 0

/-- `_label_from_score`. -/
def _label_from_score (score : ℚ) : String :=
  if score ≥ 80 then "P1"
  else if score ≥ 60 then "P2"
  else if score ≥ 40 then "P3"
  else "P4"

/-- One row of the tasks DataFrame (the fields of the `Task` table as
materialised by `fetch_tasks_df`). -/
structure Row where
  id : Int
  title : String
  description : String
  status : String
  category : String
  due_date : Option (Option Int)
  required_info : List String
  received_info : List String
  business_impact : String
  effort : Int
  dependencies : List Int
  priority_label : String
  priority_score : ℚ
  tags : List String
deriving DecidableEq

/-- The open-dependency check of `recalc_priority` (lines 148–155):
collect the distinct dependency ids, discard those for which some row of
`tasks_df` has that id and status "Done", and report whether any id is
left. -/
def depsOpen (deps : List Int) (tasks_df : List Row) : Bool :=
  if deps.isEmpty then false
  else
    let dep_ids := deps.dedup
    let open_ids := dep_ids.filter
      (fun d => ! tasks_df.any (fun r => r.id == d && r.status == "Done"))
    ! open_ids.isEmpty

/-- The `info_ratio` expression of `recalc_priority` (line 166): 0.0 for
empty `required`, otherwise `min 1` of the lower-cased (NOT stripped)
intersection count over `len(required)`. -/
def info_ratio (required received : List String) : ℚ :=
  if required.isEmpty then 0
  else min 1 ((setInterCard (received.map normLower) (required.map normLower) : ℚ)
      / (required.length : ℚ))

/-- `recalc_priority(row, tasks_df, days_window)`; `today` stands for
`date.today()`. Returns `(score, label, status, escalated)`. -/
def recalc_priority (row : Row) (tasks_df : List Row) (days_window : Int) (today : Int) :
    ℚ × String × String × Bool :=
  let required := row.required_info
  let received := row.received_info
  let deps := row.dependencies
  let deps_open := depsOpen deps tasks_df
  let base := _impact_points row.business_impact
  let urgency := _urgency_points row.due_date days_window today
  let info := _info_points required received
  let effort_pen := _effort_penalty row.effort
  let blocked_pen := _blocked_penalty row.status deps_open
  let score := max 0 (min 100 (base + urgency + info + effort_pen + blocked_pen))
  let label := _label_from_score score
  let status0 := row.status
  let ratio := info_ratio required received
  let status1 := if status0 = "Waiting Info" ∧ ratio ≥ 1 then "Backlog" else status0
  let status2 :=
    if deps_open = true ∧ status1 ≠ "Done" ∧ status1 ≠ "Blocked" then "Blocked" else status1
  let escalated := decide (label = "P1" ∧ ratio ≥ 1)
  (score, label, status2, escalated)

/-- The columns `top5` selects for its result. -/
structure TaskView where
  id : Int
  title : String
  category : String
  status : String
  priority_label : String
  priority_score : ℚ
  due_date : Option (Option Int)
deriving DecidableEq

/-- Column selection applied by `top5` to each surviving row. -/
def projView (r : Row) : TaskView :=
  { id := r.id, title := r.title, category := r.category, status := r.status,
    priority_label := r.priority_label, priority_score := r.priority_score,
    due_date := r.due_date }

/-- Lexicographic strict comparison of character lists by code point:
the order Python uses to compare strings (and hence the order pandas
uses to sort the `priority_label` string column ascending). -/
def strDataLt : List Char → List Char → Bool
  | [], [] => false
  | [], _ :: _ => true
  | _ :: _, [] => false
  | a :: as, b :: bs => if a < b then true else if b < a then false else strDataLt as bs

/-- Python string comparison `a < b`. -/
def pyStrLt (a b : String) : Bool :=
  strDataLt a.data b.data

/-- The sort key of `top5`: `priority_label` ascending (string order),
ties broken by `priority_score` descending. -/
def sortRel (a b : Row) : Prop :=
  pyStrLt a.priority_label b.priority_label = true ∨
    (a.priority_label = b.priority_label ∧ b.priority_score ≤ a.priority_score)

instance : DecidableRel sortRel :=
  fun a b => decidable_of_iff
    (pyStrLt a.priority_label b.priority_label = true ∨
      (a.priority_label = b.priority_label ∧ b.priority_score ≤ a.priority_score)) Iff.rfl

/-- The same sort key on the projected columns. -/
def viewRel (a b : TaskView) : Prop :=
  pyStrLt a.priority_label b.priority_label = true ∨
    (a.priority_label = b.priority_label ∧ b.priority_score ≤ a.priority_score)

/-- `top5`: sort by (`priority_label` asc, `priority_score` desc), keep
the first 5 rows, select the report columns. -/
def top5 (df : List Row) : List TaskView :=
  if df.isEmpty then []
  else ((df.insertionSort sortRel).take 5).map projView

/-! ### Concrete task records used in counterexamples and witnesses -/

/-- A task with empty `required_info` whose status is "Waiting Info". -/
def c1row : Row :=
  { id := 1, title := "t", description := "", status := "Waiting Info", category := "Trabajo",
    due_date := none, required_info := [], received_info := ["a"], business_impact := "Medium",
    effort := 3, dependencies := [], priority_label := "P4", priority_score := 0, tags := [] }

/-- The first worked example of the spec: Critical impact, due today,
half of the required information received, effort 3, no dependencies. -/
def row87 : Row :=
  { id := 1, title := "t", description := "", status := "Backlog", category := "Trabajo",
    due_date := some (some 0), required_info := ["x", "y"], received_info := ["x"],
    business_impact := "Critical", effort := 3, dependencies := [], priority_label := "P4",
    priority_score := 0, tags := [] }

/-- The second worked example: as `row87` but with all required
information received. -/
def row100 : Row :=
  { row87 with received_info := ["x", "y"] }

/-- A task with one dependency (id 7) and status "Backlog". -/
def c6row : Row :=
  { id := 2, title := "t", description := "", status := "Backlog", category := "Trabajo",
    due_date := none, required_info := [], received_info := [], business_impact := "Medium",
    effort := 3, dependencies := [7], priority_label := "P4", priority_score := 0, tags := [] }

/-- A minimal row for the `top5` ordering example, varying only id,
label and score. -/
def exR (i : Int) (lab : String) (sc : ℚ) : Row :=
  { id := i, title := "t", description := "", status := "Backlog", category := "Trabajo",
    due_date := none, required_info := [], received_info := [], business_impact := "Medium",
    effort := 3, dependencies := [], priority_label := lab, priority_score := sc, tags := [] }

/-- A row for the non-interference witness. -/
def c10rowA : Row :=
  { id := 1, title := "alpha", description := "da", status := "Backlog", category := "Trabajo",
    due_date := some (some 3), required_info := ["x"], received_info := ["x"],
    business_impact := "High", effort := 2, dependencies := [9], priority_label := "P4",
    priority_score := 0, tags := ["a"] }

/-- As `c10rowA` but with different title, description, category, id,
tags and stored priority fields. -/
def c10rowB : Row :=
  { id := 42, title := "beta", description := "db", status := "Backlog", category := "Escuela",
    due_date := some (some 3), required_info := ["x"], received_info := ["x"],
    business_impact := "High", effort := 2, dependencies := [9], priority_label := "P1",
    priority_score := 99, tags := ["b"] }

/-- A task collection for the non-interference witness. -/
def c10tasksA : List Row :=
  [{ id := 9, title := "dep", description := "", status := "Done", category := "Trabajo",
     due_date := none, required_info := [], received_info := [], business_impact := "Low",
     effort := 1, dependencies := [], priority_label := "P4", priority_score := 0, tags := [] }]

/-- A collection agreeing with `c10tasksA` on ids and statuses only. -/
def c10tasksB : List Row :=
  [{ id := 9, title := "other", description := "x", status := "Done", category := "Escuela",
     due_date := some none, required_info := ["q"], received_info := [], business_impact := "High",
     effort := 5, dependencies := [3], priority_label := "P2", priority_score := 55,
     tags := ["z"] }]

end PlannerDb

namespace PlannerDb

/-! ### Helper lemmas -/

theorem strDataLt_trans : ∀ {as bs cs : List Char},
    strDataLt as bs = true → strDataLt bs cs = true → strDataLt as cs = true := by
  intro as
  induction as with
  | nil =>
    intro bs cs h1 h2
    cases bs with
    | nil => simp [strDataLt] at h1
    | cons b bs =>
      cases cs with
      | nil => simp [strDataLt] at h2
      | cons c cs => simp [strDataLt]
  | cons a as ih =>
    intro bs cs h1 h2
    cases bs with
    | nil => simp [strDataLt] at h1
    | cons b bs =>
      cases cs with
      | nil => simp [strDataLt] at h2
      | cons c cs =>
        simp only [strDataLt] at h1 h2 ⊢
        by_cases hab : a < b
        · by_cases hbc : b < c
          · rw [if_pos (lt_trans hab hbc)]
          · by_cases hcb : c < b
            · rw [if_neg hbc, if_pos hcb] at h2
              exact absurd h2 (by simp)
            · have hb : b = c := le_antisymm (not_lt.mp hcb) (not_lt.mp hbc)
              subst hb
              rw [if_pos hab]
        · by_cases hba : b < a
          · rw [if_neg hab, if_pos hba] at h1
            exact absurd h1 (by simp)
          · have ha : a = b := le_antisymm (not_lt.mp hba) (not_lt.mp hab)
            subst ha
            rw [if_neg (lt_irrefl a), if_neg (lt_irrefl a)] at h1
            by_cases hac : a < c
            · rw [if_pos hac]
            · by_cases hca : c < a
              · rw [if_neg hac, if_pos hca] at h2
                exact absurd h2 (by simp)
              · have hc : a = c := le_antisymm (not_lt.mp hca) (not_lt.mp hac)
                subst hc
                rw [if_neg (lt_irrefl a), if_neg (lt_irrefl a)] at h2 ⊢
                exact ih h1 h2

theorem strDataLt_total_or_eq : ∀ (as bs : List Char),
    strDataLt as bs = true ∨ as = bs ∨ strDataLt bs as = true := by
  intro as
  induction as with
  | nil =>
    intro bs
    cases bs with
    | nil => right; left; rfl
    | cons b bs => left; simp [strDataLt]
  | cons a as ih =>
    intro bs
    cases bs with
    | nil => right; right; simp [strDataLt]
    | cons b bs =>
      rcases lt_trichotomy a b with hab | hab | hab
      · left; simp only [strDataLt]; rw [if_pos hab]
      · subst hab
        rcases ih bs with h | h | h
        · left; simp only [strDataLt]
          rw [if_neg (lt_irrefl a), if_neg (lt_irrefl a)]; exact h
        · right; left; rw [h]
        · right; right; simp only [strDataLt]
          rw [if_neg (lt_irrefl a), if_neg (lt_irrefl a)]; exact h
      · right; right; simp only [strDataLt]; rw [if_pos hab]

theorem string_eq_of_data_eq {s t : String} (h : s.data = t.data) : s = t := by
  cases s
  cases t
  exact congrArg String.mk h

instance : IsTrans Row sortRel := by
  constructor
  intro a b c hab hbc
  rcases hab with hab | ⟨hab, sab⟩
  · rcases hbc with hbc | ⟨hbc, _⟩
    · exact Or.inl (strDataLt_trans hab hbc)
    · exact Or.inl (hbc ▸ hab)
  · rcases hbc with hbc | ⟨hbc, sbc⟩
    · exact Or.inl (hab ▸ hbc)
    · exact Or.inr ⟨hab.trans hbc, le_trans sbc sab⟩

instance : IsTotal Row sortRel := by
  constructor
  intro a b
  rcases strDataLt_total_or_eq a.priority_label.data b.priority_label.data with h | h | h
  · exact Or.inl (Or.inl h)
  · have hlab : a.priority_label = b.priority_label := string_eq_of_data_eq h
    rcases le_total a.priority_score b.priority_score with hs | hs
    · exact Or.inr (Or.inr ⟨hlab.symm, hs⟩)
    · exact Or.inl (Or.inr ⟨hlab, hs⟩)
  · exact Or.inr (Or.inl h)

theorem setInterCard_le_length (xs ys : List (List Char)) :
    setInterCard xs ys ≤ ys.length := by
  have hnd : (xs.dedup.filter (fun x => x ∈ ys)).Nodup :=
    (List.nodup_dedup xs).filter _
  have hsub : (xs.dedup.filter (fun x => x ∈ ys)) ⊆ ys := by
    intro x hx
    have := List.mem_filter.mp hx
    simpa using this.2
  exact (hnd.subperm hsub).length_le

theorem setInterCard_of_superset {xs ys : List (List Char)}
    (hnd : ys.Nodup) (hsub : ∀ y ∈ ys, y ∈ xs) :
    setInterCard xs ys = ys.length := by
  have hperm : (xs.dedup.filter (fun x => x ∈ ys)).Perm ys := by
    rw [List.perm_ext_iff_of_nodup ((List.nodup_dedup xs).filter _) hnd]
    intro a
    constructor
    · intro ha
      simpa using (List.mem_filter.mp ha).2
    · intro ha
      refine List.mem_filter.mpr ⟨List.mem_dedup.mpr (hsub a ha), by simpa using ha⟩
  exact hperm.length_eq

theorem depsOpen_of_open_dep {deps : List Int} {tasks : List Row} {d : Int}
    (hd : d ∈ deps) (hopen : ∀ r ∈ tasks, ¬(r.id = d ∧ r.status = "Done")) :
    depsOpen deps tasks = true := by
  have hmem : d ∈ deps.dedup.filter
      (fun d => ! tasks.any (fun r => r.id == d && r.status == "Done")) := by
    refine List.mem_filter.mpr ⟨List.mem_dedup.mpr hd, ?_⟩
    simp only [Bool.not_eq_true', List.any_eq_false, Bool.and_eq_true, beq_iff_eq, not_and]
    intro r hr h1 h2
    exact hopen r hr ⟨h1, h2⟩
  have hne : deps.isEmpty = false := by
    rw [List.isEmpty_eq_false]
    exact List.ne_nil_of_mem hd
  simp only [depsOpen, hne, Bool.false_eq_true, if_false, Bool.not_eq_eq_eq_not, Bool.not_true,
    List.isEmpty_eq_false]
  exact List.ne_nil_of_mem hmem

end PlannerDb

namespace PlannerDb

/-- The status component of `recalc_priority`, written out: the
Waiting-Info release step followed by the dependency-blocking step. -/
theorem recalc_status_eq (row : Row) (tasks : List Row) (w t : Int) :
    (recalc_priority row tasks w t).2.2.1 =
      (if depsOpen row.dependencies tasks = true ∧
          (if row.status = "Waiting Info" ∧
              info_ratio row.required_info row.received_info ≥ 1
           then "Backlog" else row.status) ≠ "Done" ∧
          (if row.status = "Waiting Info" ∧
              info_ratio row.required_info row.received_info ≥ 1
           then "Backlog" else row.status) ≠ "Blocked"
       then "Blocked"
       else (if row.status = "Waiting Info" ∧
                info_ratio row.required_info row.received_info ≥ 1
             then "Backlog" else row.status)) := rfl

/-- The escalated component of `recalc_priority`, written out. -/
theorem recalc_escalated_eq (row : Row) (tasks : List Row) (w t : Int) :
    (recalc_priority row tasks w t).2.2.2 =
      decide ((recalc_priority row tasks w t).2.1 = "P1" ∧
        info_ratio row.required_info row.received_info ≥ 1) := rfl

/-- The score component of `recalc_priority`, written out. -/
theorem recalc_score_eq (row : Row) (tasks : List Row) (w t : Int) :
    (recalc_priority row tasks w t).1 =
      max 0 (min 100 (_impact_points row.business_impact
        + _urgency_points row.due_date w t
        + _info_points row.required_info row.received_info
        + _effort_penalty row.effort
        + _blocked_penalty row.status (depsOpen row.dependencies tasks))) := rfl

/-- The label component of `recalc_priority`, written out. -/
theorem recalc_label_eq (row : Row) (tasks : List Row) (w t : Int) :
    (recalc_priority row tasks w t).2.1 =
      _label_from_score (recalc_priority row tasks w t).1 := rfl

end PlannerDb

namespace PlannerDb

/-! ### Claim theorems -/

/-- C7: for every input, the score returned by `recalc_priority` lies in
[0,100], and the label is the strict step function of the clamped score
(≥ 80 → P1, ≥ 60 → P2, ≥ 40 → P3, else P4). -/
theorem c7_score_range_and_label (row : Row) (tasks : List Row) (w t : Int) :
    0 ≤ (recalc_priority row tasks w t).1 ∧ (recalc_priority row tasks w t).1 ≤ 100 ∧
    (recalc_priority row tasks w t).2.1 =
      (if (recalc_priority row tasks w t).1 ≥ 80 then "P1"
       else if (recalc_priority row tasks w t).1 ≥ 60 then "P2"
       else if (recalc_priority row tasks w t).1 ≥ 40 then "P3"
       else "P4") := by
  refine ⟨?_, ?_, rfl⟩
  · exact le_max_left 0 _
  · rw [recalc_score_eq]
    exact max_le (by norm_num) (min_le_left _ _)

/-- C5: the two worked examples of the spec. A task with Critical
impact, due today, required_info = [x,y], received_info = [x], effort 3,
no dependencies and status Backlog scores 87 with label P1, stays in
Backlog, not escalated; with received_info = [x,y] it scores 100
(clamped from 107), label P1, escalated. -/
theorem c5_worked_examples :
    recalc_priority row87 [] 14 0 = (87, "P1", "Backlog", false) ∧
    recalc_priority row100 [] 14 0 = (100, "P1", "Backlog", true) := by
  constructor
  · have h1 : setInterCard (row87.received_info.map normStripLower)
        (row87.required_info.map normStripLower) = 1 := by decide
    have h2 : setInterCard (row87.received_info.map normLower)
        (row87.required_info.map normLower) = 1 := by decide
    simp [recalc_priority, row87, _impact_points, _urgency_points, _info_points,
      _effort_penalty, _blocked_penalty, _label_from_score, depsOpen, info_ratio] at h1 h2 ⊢
    norm_num [h1, h2]
  · have h1 : setInterCard (row100.received_info.map normStripLower)
        (row100.required_info.map normStripLower) = 2 := by decide
    have h2 : setInterCard (row100.received_info.map normLower)
        (row100.required_info.map normLower) = 2 := by decide
    simp [recalc_priority, row100, row87, _impact_points, _urgency_points, _info_points,
      _effort_penalty, _blocked_penalty, _label_from_score, depsOpen, info_ratio] at h1 h2 ⊢
    norm_num [h1, h2]

/-- C4: no exception paths — (a) an absent or unparseable due date
contributes 0 urgency; (b) effort is clamped into [1,8] (so any effort
below 1 acts as 1, giving penalty 0, and any effort above 8 acts as 8,
giving −10.5); (c) empty required_info contributes 0 information
points; (d) a dependency id with no matching task is treated as open;
(e) the engine always returns a (score, label, status, escalated)
tuple (totality of the embedding). -/
theorem c4_no_exceptions :
    (∀ w t : Int, _urgency_points none w t = 0 ∧ _urgency_points (some none) w t = 0) ∧
    (∀ e : Int, _effort_penalty e = _effort_penalty (max 1 (min 8 e)) ∧
      (e < 1 → _effort_penalty e = 0) ∧ (8 < e → _effort_penalty e = -10.5)) ∧
    (∀ received : List String, _info_points [] received = 0) ∧
    (∀ (deps : List Int) (tasks : List Row) (d : Int), d ∈ deps →
      (∀ r ∈ tasks, r.id ≠ d) → depsOpen deps tasks = true) ∧
    (∀ (row : Row) (tasks : List Row) (w t : Int),
      ∃ s l st esc, recalc_priority row tasks w t = (s, l, st, esc)) := by
  refine ⟨fun w t => ⟨rfl, rfl⟩, fun e => ⟨?_, ?_, ?_⟩, fun received => rfl, ?_, ?_⟩
  · have h : max 1 (min 8 (max 1 (min 8 e))) = max 1 (min 8 e) := by omega
    simp only [_effort_penalty, h]
  · intro he
    have h : max 1 (min 8 e) = 1 := by omega
    simp only [_effort_penalty, h]
    norm_num
  · intro he
    have h : max 1 (min 8 e) = 8 := by omega
    simp only [_effort_penalty, h]
    norm_num
  · intro deps tasks d hd hne
    exact depsOpen_of_open_dep hd (fun r hr hc => hne r hr hc.1)
  · intro row tasks w t
    exact ⟨_, _, _, _, rfl⟩

/-- Witness for C4 at concrete inputs: effort 0 is clamped to give
penalty 0, effort 99 gives −10.5, and a dangling dependency id is
open. -/
theorem c4_witness :
    _effort_penalty 0 = 0 ∧ _effort_penalty 99 = -10.5 ∧ depsOpen [7] [] = true := by
  refine ⟨(c4_no_exceptions.2.1 0).2.1 (by decide),
    (c4_no_exceptions.2.1 99).2.2 (by decide),
    c4_no_exceptions.2.2.2.1 [7] [] 7 (by decide) (by simp)⟩

end PlannerDb

namespace PlannerDb

/-- C8: urgency points are 0 for an absent or unparseable due date, 30
when days_left = due − today is ≤ 0, otherwise 30·(1 − days_left /
days_window) clamped to [0,30]; they are non-increasing in days_left
and are 0 from days_left ≥ days_window on. -/
theorem c8_urgency_points (w t : Int) (hw : 0 < w) :
    _urgency_points none w t = 0 ∧
    _urgency_points (some none) w t = 0 ∧
    (∀ d : Int, d - t ≤ 0 → _urgency_points (some (some d)) w t = 30) ∧
    (∀ d : Int, 0 < d - t →
      _urgency_points (some (some d)) w t
        = min 30 (max 0 (30 * (1 - ((d - t : Int) : ℚ) / (w : ℚ))))) ∧
    (∀ d1 d2 : Int, d1 ≤ d2 →
      _urgency_points (some (some d2)) w t ≤ _urgency_points (some (some d1)) w t) ∧
    (∀ d : Int, w ≤ d - t → _urgency_points (some (some d)) w t = 0) := by
  have hwq : (0 : ℚ) < (w : ℚ) := by exact_mod_cast hw
  refine ⟨rfl, rfl, ?_, ?_, ?_, ?_⟩
  · intro d h
    simp [_urgency_points, h]
  · intro d h
    simp [_urgency_points, not_le.mpr h]
  · intro d1 d2 h12
    by_cases h2 : d2 - t ≤ 0
    · have h1 : d1 - t ≤ 0 := by omega
      simp [_urgency_points, h1, h2]
    · by_cases h1 : d1 - t ≤ 0
      · simp only [_urgency_points, if_pos h1, if_neg h2]
        exact min_le_left _ _
      · simp only [_urgency_points, if_neg h1, if_neg h2]
        refine min_le_min le_rfl (max_le_max le_rfl ?_)
        have hc : ((d1 - t : Int) : ℚ) ≤ ((d2 - t : Int) : ℚ) := by
          exact_mod_cast (by omega : d1 - t ≤ d2 - t)
        have := div_le_div_of_nonneg_right hc (le_of_lt hwq)
        nlinarith
  · intro d h
    have h0 : ¬(d - t ≤ 0) := by omega
    simp only [_urgency_points, if_neg h0]
    have hdiv : (1 : ℚ) ≤ ((d - t : Int) : ℚ) / (w : ℚ) := by
      rw [le_div_iff₀ hwq, one_mul]
      exact_mod_cast (by omega : w ≤ d - t)
    have hneg : 30 * (1 - ((d - t : Int) : ℚ) / (w : ℚ)) ≤ 0 := by nlinarith
    rw [max_eq_left hneg, min_eq_right (by norm_num : (0:ℚ) ≤ 30)]

/-- Witness for C8 with days_window 14, today 0: a due date 20 days out
gets 0 urgency, a due date today gets 30, a due date 7 days out is not
more urgent than one 3 days out. -/
theorem c8_witness :
    _urgency_points (some (some 20)) 14 0 = 0 ∧
    _urgency_points (some (some 0)) 14 0 = 30 ∧
    _urgency_points (some (some 7)) 14 0 ≤ _urgency_points (some (some 3)) 14 0 := by
  refine ⟨(c8_urgency_points 14 0 (by decide)).2.2.2.2.2 20 (by decide),
    (c8_urgency_points 14 0 (by decide)).2.2.1 0 (by decide),
    (c8_urgency_points 14 0 (by decide)).2.2.2.2.1 3 7 (by decide)⟩

/-- C6: a task with an open dependency (an id with no matching Done
task in the collection) ends up Blocked unless its input status is
Done; a task whose input status is Done keeps status Done. -/
theorem c6_open_dependency_blocked (row : Row) (tasks : List Row) (w t : Int) :
    (row.status = "Done" → (recalc_priority row tasks w t).2.2.1 = "Done") ∧
    (row.status ≠ "Done" →
      ∀ d ∈ row.dependencies, (∀ r ∈ tasks, ¬(r.id = d ∧ r.status = "Done")) →
        (recalc_priority row tasks w t).2.2.1 = "Blocked") := by
  constructor
  · intro hdone
    rw [recalc_status_eq]
    simp [hdone]
  · intro hnd d hd hopen
    have hdo := depsOpen_of_open_dep hd hopen
    rw [recalc_status_eq]
    by_cases hw1 : row.status = "Waiting Info" ∧
        info_ratio row.required_info row.received_info ≥ 1
    · simp [hw1, hdo]
    · by_cases hbl : row.status = "Blocked"
      · simp [hw1, hbl]
      · simp [hw1, hdo, hnd, hbl]

/-- Witness for C6: a Backlog task depending on id 7 with an empty task
collection comes back Blocked. -/
theorem c6_witness : (recalc_priority c6row [] 14 0).2.2.1 = "Blocked" :=
  (c6_open_dependency_blocked c6row [] 14 0).2 (by decide) 7 (by decide) (by simp)

end PlannerDb


namespace PlannerDb

/-- C1 counterexample: for empty required_info the computed info_ratio
is 0.0, not 1.0, and a Waiting-Info task with empty required_info stays
in Waiting Info instead of moving to Backlog. -/
theorem c1_counterexample :
    info_ratio ([] : List String) ["a"] ≠ 1 ∧
    (recalc_priority c1row [] 14 0).2.2.1 ≠ "Backlog" ∧
    (recalc_priority c1row [] 14 0).2.2.1 = "Waiting Info" := by
  refine ⟨by norm_num [info_ratio], by decide, by decide⟩

/-- C1 amended: for every task with empty required_info the computed
info_ratio is 0.0; consequently escalated is always false, and a
Waiting-Info task keeps status Waiting Info unless an open dependency
turns it into Blocked. -/
theorem c1_empty_required_amended (row : Row) (tasks : List Row) (w t : Int)
    (hreq : row.required_info = []) :
    info_ratio row.required_info row.received_info = 0 ∧
    (recalc_priority row tasks w t).2.2.2 = false ∧
    (row.status = "Waiting Info" →
      (recalc_priority row tasks w t).2.2.1 =
        (if depsOpen row.dependencies tasks = true then "Blocked" else "Waiting Info")) := by
  have hratio : info_ratio row.required_info row.received_info = 0 := by
    simp [info_ratio, hreq]
  have hnot : ¬(info_ratio row.required_info row.received_info ≥ 1) := by
    rw [hratio]; norm_num
  refine ⟨hratio, ?_, ?_⟩
  · rw [recalc_escalated_eq]
    simp [hnot]
  · intro hws
    rw [recalc_status_eq]
    by_cases hdo : depsOpen row.dependencies tasks = true
    · simp [hws, hnot, hdo]
    · simp [hws, hnot, hdo]

/-- Witness for C1 amended at the concrete Waiting-Info task with empty
required_info. -/
theorem c1_witness :
    (recalc_priority c1row [] 14 0).2.2.2 = false ∧
    (recalc_priority c1row [] 14 0).2.2.1 = "Waiting Info" := by
  have h := c1_empty_required_amended c1row [] 14 0 rfl
  refine ⟨h.2.1, ?_⟩
  have h2 := h.2.2 rfl
  simpa [depsOpen] using h2

/-- C2 counterexample: for required_info = [x] and received_info = [ x]
(leading space) the information points are the full 40 — the points
intersection strips whitespace — yet the recomputed info_ratio is 0,
because the line-166 intersection only lower-cases. The two
intersections are therefore not the same. -/
theorem c2_counterexample :
    _info_points ["x"] [" x"] = 40 ∧
    info_ratio ["x"] [" x"] = 0 ∧
    info_ratio ["x"] [" x"] ≠ _info_points ["x"] [" x"] / 40 := by
  have h1 : _info_points ["x"] [" x"] = 40 := by
    have hg : setInterCard [normStripLower " x"] [normStripLower "x"] = 1 := by decide
    simp [_info_points, hg]
  have h2 : info_ratio ["x"] [" x"] = 0 := by
    have hg : setInterCard [normLower " x"] [normLower "x"] = 0 := by decide
    simp [info_ratio, hg]
  refine ⟨h1, h2, ?_⟩
  rw [h1, h2]
  norm_num

/-- C2 amended: when every element of required_info and received_info
carries no leading or trailing whitespace (so only case can differ),
the two intersections coincide: info_ratio equals the information
points divided by 40, and the full 40 points are awarded exactly when
info_ratio is 1. -/
theorem c2_trimmed_inputs_amended (required received : List String)
    (hne : required ≠ [])
    (hreqtrim : ∀ x ∈ required, pyStrip x.data = x.data)
    (hrecvtrim : ∀ x ∈ received, pyStrip x.data = x.data) :
    info_ratio required received = _info_points required received / 40 ∧
    (_info_points required received = 40 ↔ info_ratio required received = 1) := by
  have hreqmap : required.map normStripLower = required.map normLower :=
    List.map_congr_left (fun x hx => by simp [normStripLower, normLower, hreqtrim x hx])
  have hrecvmap : received.map normStripLower = received.map normLower :=
    List.map_congr_left (fun x hx => by simp [normStripLower, normLower, hrecvtrim x hx])
  have hlen : 0 < required.length := List.length_pos.mpr hne
  have hlenq : (0 : ℚ) < (required.length : ℚ) := by exact_mod_cast hlen
  have hempty : required.isEmpty = false := by
    rw [List.isEmpty_eq_false]; exact hne
  have hmaxq : (1 : ℚ) ⊔ (required.length : ℚ) = (required.length : ℚ) :=
    max_eq_right (by exact_mod_cast hlen)
  have hgle : setInterCard (received.map normLower) (required.map normLower)
      ≤ required.length := by
    have h := setInterCard_le_length (received.map normLower) (required.map normLower)
    rwa [List.length_map] at h
  have hratio : info_ratio required received =
      (setInterCard (received.map normLower) (required.map normLower) : ℚ)
        / (required.length : ℚ) := by
    simp only [info_ratio, hempty, Bool.false_eq_true, if_false]
    refine min_eq_right ?_
    rw [div_le_one hlenq]
    exact_mod_cast hgle
  have hpoints : _info_points required received =
      40 * ((setInterCard (received.map normLower) (required.map normLower) : ℚ)
        / (required.length : ℚ)) := by
    simp only [_info_points, hempty, Bool.false_eq_true, if_false, hrecvmap, hreqmap, hmaxq]
  constructor
  · rw [hratio, hpoints]
    ring
  · rw [hratio, hpoints]
    constructor
    · intro h
      linarith
    · intro h
      rw [h]
      norm_num

/-- Witness for C2 amended at required_info = [x], received_info = [X]:
both intersections give ratio 1 and the full 40 points. -/
theorem c2_witness :
    info_ratio ["x"] ["X"] = _info_points ["x"] ["X"] / 40 ∧
    (_info_points ["x"] ["X"] = 40 ↔ info_ratio ["x"] ["X"] = 1) :=
  c2_trimmed_inputs_amended ["x"] ["X"] (by decide) (by decide) (by decide)

/-- C3 counterexample: with required_info = [x, x] (a duplicate after
normalisation) and received_info = [x], received_info is a
case/whitespace-insensitive superset of required_info, yet the
information points are 20, not 40, because the denominator is the raw
list length. -/
theorem c3_counterexample :
    (∀ x ∈ (["x", "x"] : List String),
      normStripLower x ∈ (["x"] : List String).map normStripLower) ∧
    _info_points ["x", "x"] ["x"] = 20 := by
  constructor
  · decide
  · have hg : setInterCard [normStripLower "x"] [normStripLower "x", normStripLower "x"]
        = 1 := by decide
    simp [_info_points, hg]
    norm_num

/-- C3 amended: information points are 0 for empty required_info and
otherwise 40 · |required ∩ received| / len(required) under the
case-insensitive trimmed set intersection, with len(required) the raw
list length; they are exactly 40 whenever received_info is a
case/whitespace-insensitive superset of required_info AND required_info
has no duplicates modulo trimming and lower-casing. -/
theorem c3_info_points_amended (required received : List String) :
    (required = [] → _info_points required received = 0) ∧
    (required ≠ [] → _info_points required received =
      40 * ((setInterCard (received.map normStripLower) (required.map normStripLower) : ℚ)
        / (required.length : ℚ))) ∧
    (required ≠ [] → (required.map normStripLower).Nodup →
      (∀ x ∈ required, normStripLower x ∈ received.map normStripLower) →
      _info_points required received = 40) := by
  refine ⟨?_, ?_, ?_⟩
  · intro h
    subst h
    rfl
  · intro hne
    have hlen : 0 < required.length := List.length_pos.mpr hne
    have hempty : required.isEmpty = false := by
      rw [List.isEmpty_eq_false]; exact hne
    have hmaxq : (1 : ℚ) ⊔ (required.length : ℚ) = (required.length : ℚ) :=
      max_eq_right (by exact_mod_cast hlen)
    simp only [_info_points, hempty, Bool.false_eq_true, if_false, hmaxq]
  · intro hne hnd hsup
    have hlen : 0 < required.length := List.length_pos.mpr hne
    have hlenq : (0 : ℚ) < (required.length : ℚ) := by exact_mod_cast hlen
    have hempty : required.isEmpty = false := by
      rw [List.isEmpty_eq_false]; exact hne
    have hmaxq : (1 : ℚ) ⊔ (required.length : ℚ) = (required.length : ℚ) :=
      max_eq_right (by exact_mod_cast hlen)
    have hsub : ∀ y ∈ required.map normStripLower, y ∈ received.map normStripLower := by
      intro y hy
      rcases List.mem_map.mp hy with ⟨x, hx, rfl⟩
      exact hsup x hx
    have hg : setInterCard (received.map normStripLower) (required.map normStripLower)
        = required.length := by
      rw [setInterCard_of_superset hnd hsub, List.length_map]
    simp only [_info_points, hempty, Bool.false_eq_true, if_false, hg, hmaxq]
    field_simp

/-- Witness for C3 amended at required_info = [x] (no duplicates),
received_info = [ X ], a case/whitespace-insensitive superset: the
points are exactly 40. -/
theorem c3_witness : _info_points ["x"] [" X "] = 40 :=
  (c3_info_points_amended ["x"] [" X "]).2.2 (by decide) (by decide) (by decide)

end PlannerDb

namespace PlannerDb

/-- C9: `top5` output is sorted by label ascending with score
descending among equal labels, has min(5, n) entries drawn from the
projected input collection, and on the spec example with labels
[P2,P1,P1,P3] and scores [50,90,70,10] it returns the tasks in the
order P1/90, P1/70, P2/50, P3/10. -/
theorem c9_top5_ordering :
    (∀ df : List Row, (top5 df).Pairwise viewRel) ∧
    (∀ df : List Row, (top5 df).length = min 5 df.length) ∧
    (∀ df : List Row, (top5 df).Subperm (df.map projView)) ∧
    top5 [exR 1 "P2" 50, exR 2 "P1" 90, exR 3 "P1" 70, exR 4 "P3" 10] =
      [projView (exR 2 "P1" 90), projView (exR 3 "P1" 70), projView (exR 1 "P2" 50),
       projView (exR 4 "P3" 10)] := by
  refine ⟨?_, ?_, ?_, by decide⟩
  · intro df
    by_cases hdf : df.isEmpty
    · simp [top5, hdf]
    · simp only [top5, hdf, Bool.false_eq_true, if_false]
      have hs : (df.insertionSort sortRel).Pairwise sortRel :=
        List.sorted_insertionSort sortRel df
      have ht : ((df.insertionSort sortRel).take 5).Pairwise sortRel :=
        List.Pairwise.sublist (List.take_sublist 5 _) hs
      exact ht.map projView (fun a b h => h)
  · intro df
    by_cases hdf : df.isEmpty
    · rw [List.isEmpty_iff] at hdf
      simp [top5, hdf]
    · simp only [top5, hdf, Bool.false_eq_true, if_false]
      rw [List.length_map, List.length_take, List.length_insertionSort]
  · intro df
    by_cases hdf : df.isEmpty
    · rw [List.isEmpty_iff] at hdf
      simp [top5, hdf]
    · simp only [top5, hdf, Bool.false_eq_true, if_false]
      have h1 : (((df.insertionSort sortRel).take 5).map projView).Sublist
          ((df.insertionSort sortRel).map projView) :=
        (List.take_sublist 5 _).map projView
      have h2 : ((df.insertionSort sortRel).map projView).Perm (df.map projView) :=
        (List.perm_insertionSort sortRel df).map projView
      exact h1.subperm.trans h2.subperm

/-- C10: the result of `recalc_priority` does not depend on a task
title, description, category, tags or id, nor on anything in the task
collection other than each row id and status. -/
theorem c10_noninterference (r1 r2 : Row) (ts1 ts2 : List Row) (w t : Int)
    (hstatus : r1.status = r2.status) (hdue : r1.due_date = r2.due_date)
    (hreq : r1.required_info = r2.required_info)
    (hrecv : r1.received_info = r2.received_info)
    (himp : r1.business_impact = r2.business_impact) (heff : r1.effort = r2.effort)
    (hdeps : r1.dependencies = r2.dependencies)
    (hts : ts1.map (fun r => (r.id, r.status)) = ts2.map (fun r => (r.id, r.status))) :
    recalc_priority r1 ts1 w t = recalc_priority r2 ts2 w t := by
  have hany : ∀ d : Int, (ts1.any fun r => r.id == d && r.status == "Done")
      = (ts2.any fun r => r.id == d && r.status == "Done") := by
    intro d
    induction ts1 generalizing ts2 with
    | nil =>
      cases ts2 with
      | nil => rfl
      | cons r rs => simp at hts
    | cons r rs ih =>
      cases ts2 with
      | nil => simp at hts
      | cons r2 rs2 =>
        simp only [List.map_cons, List.cons.injEq, Prod.mk.injEq] at hts
        simp only [List.any_cons, hts.1.1, hts.1.2, ih rs2 hts.2]
  have hdo : depsOpen r2.dependencies ts1 = depsOpen r2.dependencies ts2 := by
    simp only [depsOpen]
    have hf : (fun d => ! ts1.any (fun r => r.id == d && r.status == "Done"))
        = (fun d => ! ts2.any (fun r => r.id == d && r.status == "Done")) :=
      funext (fun d => by rw [hany d])
    rw [hf]
  simp only [recalc_priority, hstatus, hdue, hreq, hrecv, himp, heff, hdeps, hdo]

/-- Witness for C10: two concrete task records that differ in id,
title, description, category, tags and stored priority fields, scored
against two collections that agree only on ids and statuses, give
identical results. -/
theorem c10_witness :
    recalc_priority c10rowA c10tasksA 14 0 = recalc_priority c10rowB c10tasksB 14 0 :=
  c10_noninterference c10rowA c10rowB c10tasksA c10tasksB 14 0
    rfl rfl rfl rfl rfl rfl rfl rfl

end PlannerDb
